import Mathlib

/-!
Verification of the service-creation layer of the `pi` CLI (package `cmd`,
`create_service` commands) and the `config view` command (package `config`).

The embedding is shallow: the Go command functions in the sources are
translated into pure Lean functions.  The command dispatch code
(`CreateServiceClusterIP`, `CreateServiceNodePort`, `CreateServiceLoadBalancer`,
`CreateExternalNameService`, `errUnsupportedGenerator`, the `config view`
run closure) is translated from the source files.  The generator itself
(`pi.ServiceCommonGeneratorV1.Generate`), the port-pair parser, the generator
registry, `NameFromCommandArgs` and `RunCreateSubcommand` are declared and
called in the sources but their bodies live outside the given tree; those are
modelled from the specification, as marked on each definition.

Strings are processed through their underlying character lists so that every
definition evaluates by kernel reduction.
-/

/-- Error taxonomy of the core, from section 7 of the specification and from
the errors visible in the sources (`errUnsupportedGenerator`). -/
inductive GenErr where
  | invalidPortSpec (spec : String)
  | validationError (field : String)
  | invalidIP (value : String)
  | invalidSelector (entry : String)
  | duplicateSelectorKey (key : String)
  | invalidDNSName (value : String)
  | unsupportedGenerator (name : String)
  | submissionError (msg : String)
  deriving DecidableEq, Repr

/-- Protocol enum of a port mapping: only TCP and UDP are accepted. -/
inductive Protocol where
  | TCP
  | UDP
  deriving DecidableEq, Repr

/-- A target port is either numeric or a named container port. -/
inductive TargetPort where
  | num (n : Nat)
  | name (s : String)
  deriving DecidableEq, Repr

/-- PortPair: the typed port mapping produced by the port-pair parser. -/
structure PortPair where
  port : Nat
  targetPort : TargetPort
  protocol : Protocol
  deriving DecidableEq, Repr

/-- Split a character list on a separator character.  The result is never
empty: splitting the empty list yields one empty component. -/
def splitOnChar (c : Char) : List Char → List (List Char)
  | [] => [[]]
  | x :: xs =>
    match splitOnChar c xs with
    | [] => [[]]
    | y :: ys => if x = c then [] :: y :: ys else (x :: y) :: ys

/-- Parse a character list as a decimal natural number; `none` when the list
is empty or contains a non-digit. -/
def charsToNat? (cs : List Char) : Option Nat :=
  if cs.isEmpty then none
  else if cs.all Char.isDigit then
    some (cs.foldl (fun a c => 10 * a + (c.toNat - 48)) 0)
  else none

/-- Modelled from the spec: the target component of a port string — if it
parses as an integer it is stored as a numeric target, otherwise as a named
target.  (The parser body is absent from the given sources; only its caller
`addPortFlags` and the `--tcp` flag it serves appear there.) -/
def mkTargetPort (cs : List Char) : TargetPort :=
  match charsToNat? cs with
  | some n => TargetPort.num n
  | none => TargetPort.name (String.mk cs)

/-- Modelled from the spec: the port-pair parser.  Input forms are
`"port"`, `"port:targetPort"` and `"port:targetPort/protocol"`; the first
component must parse as a positive integer, the protocol defaults to TCP and
only TCP and UDP are accepted; every other shape fails with
`InvalidPortSpec`.  (The parser body is absent from the given sources.) -/
def parsePortPair (s : String) : Except GenErr PortPair :=
  match splitOnChar ':' s.data with
  | [p] =>
    match charsToNat? p with
    | some n =>
      if 0 < n then Except.ok ⟨n, TargetPort.num n, Protocol.TCP⟩
      else Except.error (GenErr.invalidPortSpec s)
    | none => Except.error (GenErr.invalidPortSpec s)
  | [p, t] =>
    match charsToNat? p with
    | some n =>
      if 0 < n then
        match splitOnChar '/' t with
        | [t0] => Except.ok ⟨n, mkTargetPort t0, Protocol.TCP⟩
        | [t0, pr] =>
          if pr = "TCP".data then Except.ok ⟨n, mkTargetPort t0, Protocol.TCP⟩
          else if pr = "UDP".data then Except.ok ⟨n, mkTargetPort t0, Protocol.UDP⟩
          else Except.error (GenErr.invalidPortSpec s)
        | _ => Except.error (GenErr.invalidPortSpec s)
      else Except.error (GenErr.invalidPortSpec s)
    | none => Except.error (GenErr.invalidPortSpec s)
  | _ => Except.error (GenErr.invalidPortSpec s)

/-- Modelled from the spec: parsing a sequence of port strings in order,
stopping at the first failure. -/
def parsePortList : List String → Except GenErr (List PortPair)
  | [] => Except.ok []
  | s :: rest =>
    match parsePortPair s with
    | Except.error e => Except.error e
    | Except.ok p =>
      match parsePortList rest with
      | Except.error e => Except.error e
      | Except.ok ps => Except.ok (p :: ps)

/-- A lowercase alphanumeric character (digit or lowercase letter). -/
def isAlnumLower (c : Char) : Bool :=
  c.isDigit || ('a'.val ≤ c.val && c.val ≤ 'z'.val)

/-- Modelled from the spec: the cluster naming pattern — lowercase
alphanumerics and dash, at most 253 characters, starting and ending
alphanumeric, non-empty.  (The validation library called by the generator is
absent from the given sources.) -/
def isValidName (s : String) : Bool :=
  let cs := s.data
  !cs.isEmpty && cs.length ≤ 253 &&
    cs.all (fun c => isAlnumLower c || c = '-') &&
    isAlnumLower (cs.headD '-') && isAlnumLower (cs.getLastD '-')

/-- An IPv4 octet: a decimal number between 0 and 255. -/
def isValidOctet (cs : List Char) : Bool :=
  match charsToNat? cs with
  | some n => n ≤ 255
  | none => false

/-- Modelled from the spec: syntactic IPv4 literal check — four
dot-separated decimal octets. -/
def isValidIPv4 (s : String) : Bool :=
  match splitOnChar '.' s.data with
  | [a, b, c, d] => isValidOctet a && isValidOctet b && isValidOctet c && isValidOctet d
  | _ => false

/-- A hexadecimal digit character. -/
def isHexChar (c : Char) : Bool :=
  c.isDigit || ('a'.val ≤ c.val && c.val ≤ 'f'.val) || ('A'.val ≤ c.val && c.val ≤ 'F'.val)

/-- Modelled from the spec: syntactic IPv6 literal check — a non-empty
colon-separated sequence of hexadecimal groups. -/
def isValidIPv6 (s : String) : Bool :=
  let cs := s.data
  !cs.isEmpty && cs.contains ':' && cs.all (fun c => isHexChar c || c = ':')

/-- Modelled from the spec: a syntactically valid IPv4 or IPv6 literal. -/
def isValidIP (s : String) : Bool :=
  isValidIPv4 s || isValidIPv6 s

/-- Modelled from the spec: a DNS label — non-empty, at most 63 characters,
lowercase alphanumerics and dash, starting and ending alphanumeric. -/
def isValidDNSLabel (cs : List Char) : Bool :=
  !cs.isEmpty && cs.length ≤ 63 &&
    cs.all (fun c => isAlnumLower c || c = '-') &&
    isAlnumLower (cs.headD '-') && isAlnumLower (cs.getLastD '-')

/-- Modelled from the spec: a syntactically valid DNS hostname — a series of
dot-separated labels of at most 63 characters each, at most 253 characters in
total. -/
def isValidDNSName (s : String) : Bool :=
  s.data.length ≤ 253 && (splitOnChar '.' s.data).all isValidDNSLabel

/-- Modelled from the spec: parsing of selector entries.  Each entry must
split into exactly one equals-separated pair; malformed entries fail
`InvalidSelector` naming the entry; a key already seen in an earlier entry
fails `DuplicateSelectorKey` naming the key. -/
def parseSelectorsAux (seen : List String) : List String → Except GenErr (List (String × String))
  | [] => Except.ok []
  | e :: rest =>
    match splitOnChar '=' e.data with
    | [k, v] =>
      if seen.contains (String.mk k) then
        Except.error (GenErr.duplicateSelectorKey (String.mk k))
      else
        match parseSelectorsAux (String.mk k :: seen) rest with
        | Except.error err => Except.error err
        | Except.ok ps => Except.ok ((String.mk k, String.mk v) :: ps)
    | _ => Except.error (GenErr.invalidSelector e)

/-- Modelled from the spec: parse a full selector list starting from no seen
keys. -/
def parseSelectors (entries : List String) : Except GenErr (List (String × String)) :=
  parseSelectorsAux [] entries

/-- Service type tags, mirroring `v1.ServiceTypeClusterIP`,
`v1.ServiceTypeNodePort`, `v1.ServiceTypeLoadBalancer` and
`v1.ServiceTypeExternalName` used by the source commands. -/
inductive ServiceType where
  | clusterIP
  | nodePort
  | loadBalancer
  | externalName
  deriving DecidableEq, Repr

/-- The generator parameter record, mirroring the fields of
`pi.ServiceCommonGeneratorV1` that the source commands fill: `Name`, `TCP`,
`Type` (here `svcType`, since `Type` is reserved in Lean), `ClusterIP`,
`NodePort`, `LoadBalancerIP`, `Selector`, `ExternalName`.  Fields a command
does not set are zero-valued, as in Go. -/
structure ServiceCommonGeneratorV1 where
  Name : String
  TCP : List String := []
  svcType : ServiceType
  ClusterIP : String := ""
  NodePort : Int := 0
  LoadBalancerIP : String := ""
  Selector : List String := []
  ExternalName : String := ""
  deriving DecidableEq, Repr

/-- The produced service Object.  The spec treats the Object as opaque except
for the fields the core guarantees to have set; `clusterIP` is an `Option` so
that structural absence of the field (the ExternalName variant) is
distinguishable from an empty value. -/
structure ServiceObject where
  name : String
  svcType : ServiceType
  ports : List PortPair
  clusterIP : Option String
  nodePort : Int
  loadBalancerIP : String
  selector : List (String × String)
  externalName : String
  deriving DecidableEq, Repr

/-- Modelled from the spec: `ServiceCommonGeneratorV1.Generate` (its body is
absent from the given sources; only the record construction in each command
appears there).  Validation precedes construction: the name must match the
cluster naming pattern, every port string must parse, the ClusterIP parameter
must be the `None` sentinel, empty, or a valid IP literal, the LoadBalancerIP
must be empty or a valid IP literal, selector entries must parse with no
duplicate keys, and the ExternalName must be a valid DNS hostname.  The
NodePort range check is deferred to the API server, as the design
notes of the spec record for the original.  The ExternalName variant never carries a
ClusterIP field. -/
def ServiceCommonGeneratorV1.generate (g : ServiceCommonGeneratorV1) : Except GenErr ServiceObject :=
  if !isValidName g.Name then Except.error (GenErr.validationError "name")
  else
    match parsePortList g.TCP with
    | Except.error e => Except.error e
    | Except.ok ports =>
      match g.svcType with
      | ServiceType.clusterIP =>
        if g.ClusterIP = "None" || g.ClusterIP = "" || isValidIP g.ClusterIP then
          Except.ok { name := g.Name, svcType := ServiceType.clusterIP, ports := ports,
                      clusterIP := some g.ClusterIP, nodePort := 0,
                      loadBalancerIP := "", selector := [], externalName := "" }
        else Except.error (GenErr.invalidIP g.ClusterIP)
      | ServiceType.nodePort =>
        if g.ClusterIP = "None" || g.ClusterIP = "" || isValidIP g.ClusterIP then
          Except.ok { name := g.Name, svcType := ServiceType.nodePort, ports := ports,
                      clusterIP := some g.ClusterIP, nodePort := g.NodePort,
                      loadBalancerIP := "", selector := [], externalName := "" }
        else Except.error (GenErr.invalidIP g.ClusterIP)
      | ServiceType.loadBalancer =>
        if g.LoadBalancerIP = "" || isValidIP g.LoadBalancerIP then
          match parseSelectors g.Selector with
          | Except.error e => Except.error e
          | Except.ok sel =>
            if g.ClusterIP = "None" || g.ClusterIP = "" || isValidIP g.ClusterIP then
              Except.ok { name := g.Name, svcType := ServiceType.loadBalancer, ports := ports,
                          clusterIP := some g.ClusterIP, nodePort := 0,
                          loadBalancerIP := g.LoadBalancerIP, selector := sel,
                          externalName := "" }
            else Except.error (GenErr.invalidIP g.ClusterIP)
        else Except.error (GenErr.invalidIP g.LoadBalancerIP)
      | ServiceType.externalName =>
        if isValidDNSName g.ExternalName then
          Except.ok { name := g.Name, svcType := ServiceType.externalName, ports := ports,
                      clusterIP := none, nodePort := 0,
                      loadBalancerIP := "", selector := [], externalName := g.ExternalName }
        else Except.error (GenErr.invalidDNSName g.ExternalName)

/-- Modelled from the spec: the value of
`cmdutil.ServiceClusterIPGeneratorV1Name` (the definition of the constant is
absent from the given sources; only distinctness of the four names matters
here). -/
def ServiceClusterIPGeneratorV1Name : String := "service-clusterip/v1"

/-- Modelled from the spec: the value of
`cmdutil.ServiceNodePortGeneratorV1Name`. -/
def ServiceNodePortGeneratorV1Name : String := "service-nodeport/v1"

/-- Modelled from the spec: the value of
`cmdutil.ServiceLoadBalancerGeneratorV1Name`. -/
def ServiceLoadBalancerGeneratorV1Name : String := "service-loadbalancer/v1"

/-- Modelled from the spec: the value of
`cmdutil.ServiceExternalNameGeneratorV1Name`. -/
def ServiceExternalNameGeneratorV1Name : String := "service-externalname/v1"

/-- The registered generator names: registration is static and exhaustive at
startup. -/
def registeredGeneratorNames : List String :=
  [ServiceClusterIPGeneratorV1Name, ServiceNodePortGeneratorV1Name,
   ServiceLoadBalancerGeneratorV1Name, ServiceExternalNameGeneratorV1Name]

/-- Modelled from the spec: the Generator Registry operation
`Resolve(name) -> (Factory, error)` — fails with `UnsupportedGenerator`
naming the requested name when not found.  The factory is identified by the
service-type tag it would construct.  (The registry body is absent from the
given sources.) -/
def resolveGenerator (name : String) : Except GenErr ServiceType :=
  if name = ServiceClusterIPGeneratorV1Name then Except.ok ServiceType.clusterIP
  else if name = ServiceNodePortGeneratorV1Name then Except.ok ServiceType.nodePort
  else if name = ServiceLoadBalancerGeneratorV1Name then Except.ok ServiceType.loadBalancer
  else if name = ServiceExternalNameGeneratorV1Name then Except.ok ServiceType.externalName
  else Except.error (GenErr.unsupportedGenerator name)

/-- `errUnsupportedGenerator` from the source: the usage error naming the
requested generator. -/
def errUnsupportedGenerator (generatorName : String) : GenErr :=
  GenErr.unsupportedGenerator generatorName

/-- Modelled from the spec: `NameFromCommandArgs` (its body is absent from
the given sources) — the name extraction stage takes the single positional
argument, failing otherwise. -/
def nameFromCommandArgs (args : List String) : Except GenErr String :=
  match args with
  | [n] => Except.ok n
  | _ => Except.error (GenErr.validationError "NAME")

/-- Modelled from the spec: `RunCreateSubcommand` (its body is absent from
the given sources) — runs the structured generator, then hands the fully
generated Object to the submission collaborator; a submission failure is
wrapped as an opaque `SubmissionError`.  The submitter is a parameter,
standing for the excluded API client. -/
def runCreateSubcommand (submit : ServiceObject → Option String)
    (g : ServiceCommonGeneratorV1) : Except GenErr ServiceObject :=
  match g.generate with
  | Except.error e => Except.error e
  | Except.ok obj =>
    match submit obj with
    | some msg => Except.error (GenErr.submissionError msg)
    | none => Except.ok obj

/-- `CreateServiceClusterIP` from the source: extract the name, switch on the
hardcoded constant `cmdutil.ServiceClusterIPGeneratorV1Name`, build the
generator record with the `tcp` and `clusterip` flag values, and run the
subcommand. -/
def createServiceClusterIP (submit : ServiceObject → Option String)
    (args : List String) (tcp : List String) (clusterip : String) :
    Except GenErr ServiceObject :=
  match nameFromCommandArgs args with
  | Except.error e => Except.error e
  | Except.ok name =>
    if ServiceClusterIPGeneratorV1Name = ServiceClusterIPGeneratorV1Name then
      runCreateSubcommand submit
        { Name := name, TCP := tcp, svcType := ServiceType.clusterIP, ClusterIP := clusterip }
    else Except.error (errUnsupportedGenerator ServiceClusterIPGeneratorV1Name)

/-- `CreateServiceNodePort` from the source: extract the name, switch on the
`generator` flag value against `cmdutil.ServiceNodePortGeneratorV1Name`,
build the generator record with the `tcp` and `node-port` flag values and an
empty ClusterIP, and run the subcommand; any other generator name returns
`errUnsupportedGenerator`. -/
def createServiceNodePort (submit : ServiceObject → Option String)
    (args : List String) (generatorFlag : String) (tcp : List String)
    (nodePortFlag : Int) : Except GenErr ServiceObject :=
  match nameFromCommandArgs args with
  | Except.error e => Except.error e
  | Except.ok name =>
    if generatorFlag = ServiceNodePortGeneratorV1Name then
      runCreateSubcommand submit
        { Name := name, TCP := tcp, svcType := ServiceType.nodePort, ClusterIP := "",
          NodePort := nodePortFlag }
    else Except.error (errUnsupportedGenerator generatorFlag)

/-- `CreateServiceLoadBalancer` from the source: extract the name, switch on
the hardcoded constant `cmdutil.ServiceLoadBalancerGeneratorV1Name`, build
the generator record with the `tcp`, `loadbalancerip` and `selector` flag
values and an empty ClusterIP, and run the subcommand. -/
def createServiceLoadBalancer (submit : ServiceObject → Option String)
    (args : List String) (tcp : List String) (loadbalancerip : String)
    (selector : List String) : Except GenErr ServiceObject :=
  match nameFromCommandArgs args with
  | Except.error e => Except.error e
  | Except.ok name =>
    if ServiceLoadBalancerGeneratorV1Name = ServiceLoadBalancerGeneratorV1Name then
      runCreateSubcommand submit
        { Name := name, TCP := tcp, svcType := ServiceType.loadBalancer, ClusterIP := "",
          LoadBalancerIP := loadbalancerip, Selector := selector }
    else Except.error (errUnsupportedGenerator ServiceLoadBalancerGeneratorV1Name)

/-- `CreateExternalNameService` from the source: extract the name, switch on
the `generator` flag value against `cmdutil.ServiceExternalNameGeneratorV1Name`,
build the generator record with the `external-name` flag value and an empty
ClusterIP, and run the subcommand; any other generator name returns
`errUnsupportedGenerator`. -/
def createExternalNameService (submit : ServiceObject → Option String)
    (args : List String) (generatorFlag : String) (externalName : String) :
    Except GenErr ServiceObject :=
  match nameFromCommandArgs args with
  | Except.error e => Except.error e
  | Except.ok name =>
    if generatorFlag = ServiceExternalNameGeneratorV1Name then
      runCreateSubcommand submit
        { Name := name, svcType := ServiceType.externalName, ExternalName := externalName,
          ClusterIP := "" }
    else Except.error (errUnsupportedGenerator generatorFlag)

/-- The notices the `config view` run closure writes to the error stream. -/
inductive ViewNotice where
  | unavailableOutputWarning (requested : String)
  | emptyOutputReset
  deriving DecidableEq, Repr

/-- The observable outcome of the `config view` run closure: the notices
written to the error stream and the output-format flag value the printing
path receives. -/
structure ViewRunResult where
  notices : List ViewNotice
  printerFormat : String
  deriving DecidableEq, Repr

/-- The default output format of `config view`, `defaultOutputFormat` in the
source. -/
def configViewDefaultOutputFormat : String := "yaml"

/-- The `config view` run closure from `NewCmdConfigView` in the source: when
the output flag is `wide` or `name`, a warning is written but the flag-reset
call is commented out, so the flag keeps its value; when the output flag is
empty, a notice is written and the flag is set to the default before the
printing path reads it. -/
def configViewRun (outputFormat : String) : ViewRunResult :=
  let warnNotices :=
    if outputFormat = "wide" || outputFormat = "name" then
      [ViewNotice.unavailableOutputWarning outputFormat]
    else []
  let resetStep :=
    if outputFormat = "" then
      ([ViewNotice.emptyOutputReset], configViewDefaultOutputFormat)
    else ([], outputFormat)
  { notices := warnNotices ++ resetStep.1, printerFormat := resetStep.2 }


/-- Whether an error is the unsupported-generator error. -/
def errIsUnsupported : GenErr → Bool
  | GenErr.unsupportedGenerator _ => true
  | _ => false

/-- Whether a command outcome is the unsupported-generator error. -/
def isUnsupportedGeneratorError (r : Except GenErr ServiceObject) : Bool :=
  match r with
  | Except.error e => errIsUnsupported e
  | Except.ok _ => false

/-- A concrete headless ClusterIP generator input, from the command example
`pi create service clusterip my-cs --clusterip=None`. -/
def headlessExample : ServiceCommonGeneratorV1 :=
  { Name := "my-cs", TCP := ["5678:8080"], svcType := ServiceType.clusterIP,
    ClusterIP := "None" }

/-- The Object produced for `headlessExample`. -/
def headlessExampleObj : ServiceObject :=
  { name := "my-cs", svcType := ServiceType.clusterIP,
    ports := [⟨5678, TargetPort.num 8080, Protocol.TCP⟩],
    clusterIP := some "None", nodePort := 0, loadBalancerIP := "",
    selector := [], externalName := "" }

/-- The NodePort generator input of end-to-end scenario 2. -/
def nodePortExample : ServiceCommonGeneratorV1 :=
  { Name := "my-ns", TCP := ["5678:8080"], svcType := ServiceType.nodePort,
    ClusterIP := "", NodePort := 0 }

/-- The Object produced for `nodePortExample`. -/
def nodePortExampleObj : ServiceObject :=
  { name := "my-ns", svcType := ServiceType.nodePort,
    ports := [⟨5678, TargetPort.num 8080, Protocol.TCP⟩],
    clusterIP := some "", nodePort := 0, loadBalancerIP := "",
    selector := [], externalName := "" }

/-- The LoadBalancer generator input of end-to-end scenario 3. -/
def loadBalancerExample : ServiceCommonGeneratorV1 :=
  { Name := "my-lbs", TCP := ["5678:8080"], svcType := ServiceType.loadBalancer,
    ClusterIP := "", LoadBalancerIP := "1.2.3.4",
    Selector := ["role=web", "zone=us-a"] }

/-- The Object produced for `loadBalancerExample`. -/
def loadBalancerExampleObj : ServiceObject :=
  { name := "my-lbs", svcType := ServiceType.loadBalancer,
    ports := [⟨5678, TargetPort.num 8080, Protocol.TCP⟩],
    clusterIP := some "", nodePort := 0, loadBalancerIP := "1.2.3.4",
    selector := [("role", "web"), ("zone", "us-a")], externalName := "" }

/-- A concrete ExternalName generator input, from the command example
`pi create service externalname my-ns --external-name bar.com`. -/
def externalNameExample : ServiceCommonGeneratorV1 :=
  { Name := "my-ns", svcType := ServiceType.externalName, ClusterIP := "",
    ExternalName := "bar.com" }

/-- The Object produced for `externalNameExample`. -/
def externalNameExampleObj : ServiceObject :=
  { name := "my-ns", svcType := ServiceType.externalName, ports := [],
    clusterIP := none, nodePort := 0, loadBalancerIP := "",
    selector := [], externalName := "bar.com" }

/-- A concrete ClusterIP generator input used for the determinism claim. -/
def determinismExample : ServiceCommonGeneratorV1 :=
  { Name := "my-cs", TCP := ["5678:8080"], svcType := ServiceType.clusterIP,
    ClusterIP := "" }

/-- The Object produced for `determinismExample`. -/
def determinismExampleObj : ServiceObject :=
  { name := "my-cs", svcType := ServiceType.clusterIP,
    ports := [⟨5678, TargetPort.num 8080, Protocol.TCP⟩],
    clusterIP := some "", nodePort := 0, loadBalancerIP := "",
    selector := [], externalName := "" }

/-! Helper lemmas shared by the claim theorems. -/

theorem parsePortPair_error_not_unsupported (s : String) (e : GenErr)
    (h : parsePortPair s = Except.error e) : errIsUnsupported e = false := by
  unfold parsePortPair at h
  repeat' split at h
  all_goals first
    | (injection h with h2; subst h2; rfl)
    | injection h

theorem parsePortList_error_not_unsupported (l : List String) (e : GenErr)
    (h : parsePortList l = Except.error e) : errIsUnsupported e = false := by
  induction l with
  | nil => simp [parsePortList] at h
  | cons s rest ih =>
    unfold parsePortList at h
    split at h
    next heq =>
      injection h with h2
      subst h2
      exact parsePortPair_error_not_unsupported s _ heq
    next heq =>
      split at h
      next heq2 =>
        injection h with h2
        subst h2
        exact ih heq2
      next => injection h

theorem parseSelectorsAux_error_not_unsupported (l : List String) :
    ∀ (seen : List String) (e : GenErr),
      parseSelectorsAux seen l = Except.error e → errIsUnsupported e = false := by
  induction l with
  | nil =>
    intro seen e h
    simp [parseSelectorsAux] at h
  | cons s rest ih =>
    intro seen e h
    unfold parseSelectorsAux at h
    split at h
    · split at h
      · injection h with h2; subst h2; rfl
      · split at h
        next heq2 =>
          injection h with h2
          subst h2
          exact ih _ _ heq2
        next => injection h
    · injection h with h2; subst h2; rfl

theorem parseSelectors_error_not_unsupported (l : List String) (e : GenErr)
    (h : parseSelectors l = Except.error e) : errIsUnsupported e = false :=
  parseSelectorsAux_error_not_unsupported l [] e h

theorem generate_error_not_unsupported (g : ServiceCommonGeneratorV1) (e : GenErr)
    (h : g.generate = Except.error e) : errIsUnsupported e = false := by
  unfold ServiceCommonGeneratorV1.generate at h
  repeat' split at h
  all_goals first
    | (injection h with h2; subst h2;
       first
         | rfl
         | exact parsePortList_error_not_unsupported _ _ (by assumption)
         | exact parseSelectors_error_not_unsupported _ _ (by assumption))
    | injection h

theorem nameFromCommandArgs_error_not_unsupported (args : List String) (e : GenErr)
    (h : nameFromCommandArgs args = Except.error e) : errIsUnsupported e = false := by
  unfold nameFromCommandArgs at h
  split at h
  · injection h
  · injection h with h2; subst h2; rfl

theorem runCreate_not_unsupported (submit : ServiceObject → Option String)
    (g : ServiceCommonGeneratorV1) :
    isUnsupportedGeneratorError (runCreateSubcommand submit g) = false := by
  unfold runCreateSubcommand
  split
  next e heq =>
    show errIsUnsupported e = false
    exact generate_error_not_unsupported g e heq
  next obj heq =>
    split
    next msg hmsg => rfl
    next hmsg => rfl

theorem runCreate_generate_error (submit : ServiceObject → Option String)
    (g : ServiceCommonGeneratorV1) (e : GenErr) (h : g.generate = Except.error e) :
    runCreateSubcommand submit g = Except.error e := by
  simp [runCreateSubcommand, h]

theorem runCreate_submit_error (submit : ServiceObject → Option String)
    (g : ServiceCommonGeneratorV1) (o : ServiceObject) (msg : String)
    (hgen : g.generate = Except.ok o) (hsub : submit o = some msg) :
    runCreateSubcommand submit g = Except.error (GenErr.submissionError msg) := by
  simp [runCreateSubcommand, hgen, hsub]

theorem runCreate_ok_inv (submit : ServiceObject → Option String)
    (g : ServiceCommonGeneratorV1) (o : ServiceObject)
    (h : runCreateSubcommand submit g = Except.ok o) :
    g.generate = Except.ok o ∧ submit o = none := by
  unfold runCreateSubcommand at h
  split at h
  next e heq => injection h
  next obj heq =>
    split at h
    next msg hmsg => injection h
    next hmsg =>
      injection h with h2
      subst h2
      exact ⟨heq, hmsg⟩

/-! Claim theorems. -/

/-- Claim C2: for every input to the ExternalName service generator, the
produced Object never carries a ClusterIP field — the field is structurally
absent from the result (`none`), not merely set to the empty string. -/
theorem externalName_object_has_no_clusterIP (g : ServiceCommonGeneratorV1)
    (o : ServiceObject) (htype : g.svcType = ServiceType.externalName)
    (h : g.generate = Except.ok o) : o.clusterIP = none := by
  unfold ServiceCommonGeneratorV1.generate at h
  rw [htype] at h
  repeat' split at h
  all_goals first
    | (injection h with h2; subst h2; rfl)
    | (injection h; done)
    | simp_all

/-- Witness for C2 at the ExternalName input named `my-ns` with external name
`bar.com`. -/
theorem externalName_object_has_no_clusterIP_witness :
    externalNameExample.generate = Except.ok externalNameExampleObj ∧
    externalNameExampleObj.clusterIP = none :=
  ⟨rfl, externalName_object_has_no_clusterIP externalNameExample externalNameExampleObj rfl rfl⟩

/-- Claim C3 (counterexample): the claim as stated fails — for the
ClusterIP-generator input with ClusterIP equal to the literal `None` and the
supplied port list `["abc"]`, Generate() does not succeed; it fails with
InvalidPortSpec. -/
theorem clusterIP_none_invalid_port_counterexample :
    ({ Name := "my-cs", TCP := ["abc"], svcType := ServiceType.clusterIP,
       ClusterIP := "None" } : ServiceCommonGeneratorV1).generate =
      Except.error (GenErr.invalidPortSpec "abc") := rfl

/-- Claim C3 (amended): for every ClusterIP-generator input whose ClusterIP
parameter equals the literal `None`, whenever Generate() succeeds the
produced Object is a headless service: the ClusterIP field holds the None
sentinel. -/
theorem clusterIP_none_headless (g : ServiceCommonGeneratorV1) (o : ServiceObject)
    (htype : g.svcType = ServiceType.clusterIP) (hip : g.ClusterIP = "None")
    (h : g.generate = Except.ok o) : o.clusterIP = some "None" := by
  unfold ServiceCommonGeneratorV1.generate at h
  rw [htype] at h
  repeat' split at h
  all_goals first
    | (injection h with h2; subst h2; simp [hip]; done)
    | (injection h; done)
    | simp_all

/-- Witness for the amended C3 at the headless input named `my-cs` with one
port pair. -/
theorem clusterIP_none_headless_witness :
    headlessExample.generate = Except.ok headlessExampleObj ∧
    headlessExampleObj.clusterIP = some "None" :=
  ⟨rfl, clusterIP_none_headless headlessExample headlessExampleObj rfl rfl rfl⟩

/-- Claim C4: for the NodePort generator invoked with name `my-ns`, tcp
`["5678:8080"]` and nodePort 0, the produced Object has its NodePort field
left at the zero value, requesting automatic allocation. -/
theorem nodePort_zero_requests_auto_assign :
    nodePortExample.generate = Except.ok nodePortExampleObj ∧
    nodePortExampleObj.nodePort = 0 :=
  ⟨rfl, rfl⟩

/-- Claim C5: for the LoadBalancer generator invoked with name `my-lbs`, tcp
`["5678:8080"]`, loadbalancerip `1.2.3.4` and selector
`["role=web", "zone=us-a"]`, the produced Object contains both selector keys
and has LoadBalancerIP equal to `1.2.3.4`. -/
theorem loadBalancer_selector_keys_and_ip :
    loadBalancerExample.generate = Except.ok loadBalancerExampleObj ∧
    ("role", "web") ∈ loadBalancerExampleObj.selector ∧
    ("zone", "us-a") ∈ loadBalancerExampleObj.selector ∧
    loadBalancerExampleObj.loadBalancerIP = "1.2.3.4" := by
  refine ⟨rfl, ?_, ?_, rfl⟩ <;> simp [loadBalancerExampleObj]

/-- Claim C7: generation is a deterministic function of the generator
parameters — two successful calls of Generate() on the same
ServiceCommonGeneratorV1 record produce structurally equal Objects. -/
theorem generate_deterministic (g : ServiceCommonGeneratorV1) (o₁ o₂ : ServiceObject)
    (h₁ : g.generate = Except.ok o₁) (h₂ : g.generate = Except.ok o₂) : o₁ = o₂ := by
  rw [h₁] at h₂
  exact Except.ok.inj h₂

/-- Witness for C7 at a concrete ClusterIP input. -/
theorem generate_deterministic_witness :
    determinismExample.generate = Except.ok determinismExampleObj ∧
    determinismExampleObj = determinismExampleObj :=
  ⟨rfl, generate_deterministic determinismExample determinismExampleObj determinismExampleObj rfl rfl⟩

/-- Claim C9: in the ClusterIP and LoadBalancer create-service commands the
generator name is a hardcoded constant matched against itself, so for every
input these commands never return the unsupported-generator error. -/
theorem hardcoded_constant_commands_never_unsupported
    (submit : ServiceObject → Option String) (args tcp : List String)
    (ip lb : String) (sel : List String) :
    isUnsupportedGeneratorError (createServiceClusterIP submit args tcp ip) = false ∧
    isUnsupportedGeneratorError (createServiceLoadBalancer submit args tcp lb sel) = false := by
  constructor
  · unfold createServiceClusterIP
    split
    next e heq => exact nameFromCommandArgs_error_not_unsupported args e heq
    next name heq =>
      rw [if_pos rfl]
      exact runCreate_not_unsupported submit _
  · unfold createServiceLoadBalancer
    split
    next e heq => exact nameFromCommandArgs_error_not_unsupported args e heq
    next name heq =>
      rw [if_pos rfl]
      exact runCreate_not_unsupported submit _

/-- Claim C10: in the config view command, an empty output flag is reset to
the default `yaml` with a notice on the error stream before printing, while
`wide` and `name` only produce a warning claiming a reset — the flag is not
actually reset and the printing path still receives `wide` or `name`. -/
theorem config_view_output_flag_reset_behavior :
    configViewRun "" = { notices := [ViewNotice.emptyOutputReset],
                         printerFormat := "yaml" } ∧
    configViewRun "wide" = { notices := [ViewNotice.unavailableOutputWarning "wide"],
                             printerFormat := "wide" } ∧
    configViewRun "name" = { notices := [ViewNotice.unavailableOutputWarning "name"],
                             printerFormat := "name" } :=
  ⟨rfl, rfl, rfl⟩

/-- Claim C1: resolving a generator name that is not a registered generator
name fails with UnsupportedGenerator naming the requested name and no Object
is constructed; in particular the NodePort and ExternalName create-service
commands return the unsupported-generator error for every generator flag
value other than the matching V1 name, independently of the other flags and
of the submitter. -/
theorem unsupported_generator_always_rejected :
    (∀ n : String, n ∉ registeredGeneratorNames →
       resolveGenerator n = Except.error (GenErr.unsupportedGenerator n)) ∧
    (∀ (submit : ServiceObject → Option String) (args tcp : List String)
       (name gen : String) (np : Int),
       nameFromCommandArgs args = Except.ok name →
       gen ≠ ServiceNodePortGeneratorV1Name →
       createServiceNodePort submit args gen tcp np =
         Except.error (GenErr.unsupportedGenerator gen)) ∧
    (∀ (submit : ServiceObject → Option String) (args : List String)
       (name gen en : String),
       nameFromCommandArgs args = Except.ok name →
       gen ≠ ServiceExternalNameGeneratorV1Name →
       createExternalNameService submit args gen en =
         Except.error (GenErr.unsupportedGenerator gen)) := by
  refine ⟨?_, ?_, ?_⟩
  · intro n hn
    simp only [registeredGeneratorNames, List.mem_cons, List.not_mem_nil, or_false,
      not_or] at hn
    obtain ⟨h1, h2, h3, h4⟩ := hn
    simp [resolveGenerator, h1, h2, h3, h4]
  · intro submit args tcp name gen np hname hgen
    unfold createServiceNodePort
    rw [hname]
    simp [errUnsupportedGenerator, hgen]
  · intro submit args name gen en hname hgen
    unfold createExternalNameService
    rw [hname]
    simp [errUnsupportedGenerator, hgen]

/-- Witness for C1 at the generator name `nonexistent`. -/
theorem unsupported_generator_always_rejected_witness :
    resolveGenerator "nonexistent" =
      Except.error (GenErr.unsupportedGenerator "nonexistent") ∧
    createServiceNodePort (fun _ => none) ["my-ns"] "nonexistent" ["5678:8080"] 0 =
      Except.error (GenErr.unsupportedGenerator "nonexistent") ∧
    createExternalNameService (fun _ => none) ["my-ns"] "nonexistent" "bar.com" =
      Except.error (GenErr.unsupportedGenerator "nonexistent") :=
  ⟨unsupported_generator_always_rejected.1 "nonexistent" (by decide),
   unsupported_generator_always_rejected.2.1 (fun _ => none) ["my-ns"] ["5678:8080"]
     "my-ns" "nonexistent" 0 rfl (by decide),
   unsupported_generator_always_rejected.2.2 (fun _ => none) ["my-ns"]
     "my-ns" "nonexistent" "bar.com" rfl (by decide)⟩

/-- Claim C6: in the ClusterIP and LoadBalancer create-service commands the
first error encountered aborts the whole pipeline — a name-extraction error,
a generation error or a submission error is returned to the caller unchanged,
independently of the later stages, and a successful run implies that every
stage succeeded on the single fully constructed Object. -/
theorem first_error_aborts_pipeline :
    (∀ (submit : ServiceObject → Option String) (args tcp : List String)
       (ip : String) (e : GenErr),
       nameFromCommandArgs args = Except.error e →
       createServiceClusterIP submit args tcp ip = Except.error e) ∧
    (∀ (submit : ServiceObject → Option String) (args tcp : List String)
       (ip name : String) (e : GenErr),
       nameFromCommandArgs args = Except.ok name →
       ServiceCommonGeneratorV1.generate
         { Name := name, TCP := tcp, svcType := ServiceType.clusterIP, ClusterIP := ip } =
         Except.error e →
       createServiceClusterIP submit args tcp ip = Except.error e) ∧
    (∀ (submit : ServiceObject → Option String) (args tcp : List String)
       (ip name msg : String) (o : ServiceObject),
       nameFromCommandArgs args = Except.ok name →
       ServiceCommonGeneratorV1.generate
         { Name := name, TCP := tcp, svcType := ServiceType.clusterIP, ClusterIP := ip } =
         Except.ok o →
       submit o = some msg →
       createServiceClusterIP submit args tcp ip =
         Except.error (GenErr.submissionError msg)) ∧
    (∀ (submit : ServiceObject → Option String) (args tcp : List String)
       (ip : String) (o : ServiceObject),
       createServiceClusterIP submit args tcp ip = Except.ok o →
       ∃ name, nameFromCommandArgs args = Except.ok name ∧
         ServiceCommonGeneratorV1.generate
           { Name := name, TCP := tcp, svcType := ServiceType.clusterIP, ClusterIP := ip } =
           Except.ok o ∧
         submit o = none) ∧
    (∀ (submit : ServiceObject → Option String) (args tcp : List String)
       (lb : String) (sel : List String) (e : GenErr),
       nameFromCommandArgs args = Except.error e →
       createServiceLoadBalancer submit args tcp lb sel = Except.error e) ∧
    (∀ (submit : ServiceObject → Option String) (args tcp : List String)
       (lb : String) (sel : List String) (name : String) (e : GenErr),
       nameFromCommandArgs args = Except.ok name →
       ServiceCommonGeneratorV1.generate
         { Name := name, TCP := tcp, svcType := ServiceType.loadBalancer, ClusterIP := "",
           LoadBalancerIP := lb, Selector := sel } =
         Except.error e →
       createServiceLoadBalancer submit args tcp lb sel = Except.error e) ∧
    (∀ (submit : ServiceObject → Option String) (args tcp : List String)
       (lb : String) (sel : List String) (name msg : String) (o : ServiceObject),
       nameFromCommandArgs args = Except.ok name →
       ServiceCommonGeneratorV1.generate
         { Name := name, TCP := tcp, svcType := ServiceType.loadBalancer, ClusterIP := "",
           LoadBalancerIP := lb, Selector := sel } =
         Except.ok o →
       submit o = some msg →
       createServiceLoadBalancer submit args tcp lb sel =
         Except.error (GenErr.submissionError msg)) ∧
    (∀ (submit : ServiceObject → Option String) (args tcp : List String)
       (lb : String) (sel : List String) (o : ServiceObject),
       createServiceLoadBalancer submit args tcp lb sel = Except.ok o →
       ∃ name, nameFromCommandArgs args = Except.ok name ∧
         ServiceCommonGeneratorV1.generate
           { Name := name, TCP := tcp, svcType := ServiceType.loadBalancer, ClusterIP := "",
             LoadBalancerIP := lb, Selector := sel } =
           Except.ok o ∧
         submit o = none) := by
  refine ⟨?_, ?_, ?_, ?_, ?_, ?_, ?_, ?_⟩
  · intro submit args tcp ip e h
    unfold createServiceClusterIP
    rw [h]
  · intro submit args tcp ip name e hname hgen
    unfold createServiceClusterIP
    rw [hname]
    exact runCreate_generate_error submit _ e hgen
  · intro submit args tcp ip name msg o hname hgen hsub
    unfold createServiceClusterIP
    rw [hname]
    exact runCreate_submit_error submit _ o msg hgen hsub
  · intro submit args tcp ip o h
    unfold createServiceClusterIP at h
    split at h
    next e heq => injection h
    next name heq =>
      obtain ⟨hgen, hsub⟩ :=
        runCreate_ok_inv submit
          { Name := name, TCP := tcp, svcType := ServiceType.clusterIP, ClusterIP := ip } o h
      exact ⟨name, heq, hgen, hsub⟩
  · intro submit args tcp lb sel e h
    unfold createServiceLoadBalancer
    rw [h]
  · intro submit args tcp lb sel name e hname hgen
    unfold createServiceLoadBalancer
    rw [hname]
    exact runCreate_generate_error submit _ e hgen
  · intro submit args tcp lb sel name msg o hname hgen hsub
    unfold createServiceLoadBalancer
    rw [hname]
    exact runCreate_submit_error submit _ o msg hgen hsub
  · intro submit args tcp lb sel o h
    unfold createServiceLoadBalancer at h
    split at h
    next e heq => injection h
    next name heq =>
      obtain ⟨hgen, hsub⟩ :=
        runCreate_ok_inv submit
          { Name := name, TCP := tcp, svcType := ServiceType.loadBalancer, ClusterIP := "",
            LoadBalancerIP := lb, Selector := sel } o h
      exact ⟨name, heq, hgen, hsub⟩

/-- Witness for C6: with no positional argument the name-extraction error is
returned unchanged by both commands. -/
theorem first_error_aborts_pipeline_witness :
    createServiceClusterIP (fun _ => none) [] [] "" =
      Except.error (GenErr.validationError "NAME") ∧
    createServiceLoadBalancer (fun _ => none) [] [] "" [] =
      Except.error (GenErr.validationError "NAME") :=
  ⟨first_error_aborts_pipeline.1 (fun _ => none) [] [] "" _ rfl,
   first_error_aborts_pipeline.2.2.2.2.1 (fun _ => none) [] [] "" [] _ rfl⟩

/-- Claim C8: the port-pair parser fails with InvalidPortSpec whenever the
first colon-separated component is missing, non-numeric or not a positive
integer, and whenever the protocol suffix is neither TCP nor UDP; on the
valid forms `p`, `p:t`, `p:t/TCP` and `p:t/UDP` the `port` field of the resulting PortPair
equals `p` and the protocol defaults to TCP when omitted. -/
theorem port_parser_contract :
    (∀ (s : String) (p : List Char) (rest : List (List Char)),
       splitOnChar ':' s.data = p :: rest →
       (charsToNat? p = none ∨ charsToNat? p = some 0) →
       parsePortPair s = Except.error (GenErr.invalidPortSpec s)) ∧
    (∀ (s : String) (p t t0 pr : List Char),
       splitOnChar ':' s.data = [p, t] →
       splitOnChar '/' t = [t0, pr] →
       pr ≠ "TCP".data → pr ≠ "UDP".data →
       parsePortPair s = Except.error (GenErr.invalidPortSpec s)) ∧
    (∀ (s : String) (p : List Char) (n : Nat),
       splitOnChar ':' s.data = [p] →
       charsToNat? p = some n → 0 < n →
       parsePortPair s = Except.ok ⟨n, TargetPort.num n, Protocol.TCP⟩) ∧
    (∀ (s : String) (p t : List Char) (n : Nat),
       splitOnChar ':' s.data = [p, t] →
       splitOnChar '/' t = [t] →
       charsToNat? p = some n → 0 < n →
       parsePortPair s = Except.ok ⟨n, mkTargetPort t, Protocol.TCP⟩) ∧
    (∀ (s : String) (p t t0 : List Char) (n : Nat),
       splitOnChar ':' s.data = [p, t] →
       splitOnChar '/' t = [t0, "TCP".data] →
       charsToNat? p = some n → 0 < n →
       parsePortPair s = Except.ok ⟨n, mkTargetPort t0, Protocol.TCP⟩) ∧
    (∀ (s : String) (p t t0 : List Char) (n : Nat),
       splitOnChar ':' s.data = [p, t] →
       splitOnChar '/' t = [t0, "UDP".data] →
       charsToNat? p = some n → 0 < n →
       parsePortPair s = Except.ok ⟨n, mkTargetPort t0, Protocol.UDP⟩) := by
  refine ⟨?_, ?_, ?_, ?_, ?_, ?_⟩
  · intro s p rest hsplit hp
    unfold parsePortPair
    rw [hsplit]
    cases rest with
    | nil => rcases hp with hp | hp <;> simp [hp]
    | cons t rest2 =>
      cases rest2 with
      | nil => rcases hp with hp | hp <;> simp [hp]
      | cons u rest3 => rfl
  · intro s p t t0 pr hsplit hslash hTCP hUDP
    unfold parsePortPair
    rw [hsplit]
    cases hp : charsToNat? p with
    | none => simp [hp]
    | some n =>
      by_cases hn : 0 < n
      · simp [hp, hn, hslash, hTCP, hUDP]
      · simp [hp, hn]
  · intro s p n hsplit hp hn
    unfold parsePortPair
    rw [hsplit]
    simp [hp, hn]
  · intro s p t n hsplit hslash hp hn
    unfold parsePortPair
    rw [hsplit]
    simp [hp, hn, hslash]
  · intro s p t t0 n hsplit hslash hp hn
    unfold parsePortPair
    rw [hsplit]
    simp [hp, hn, hslash]
  · intro s p t t0 n hsplit hslash hp hn
    unfold parsePortPair
    rw [hsplit]
    simp [hp, hn, hslash]

/-- Witness for C8 at concrete port strings of each shape. -/
theorem port_parser_contract_witness :
    parsePortPair "abc" = Except.error (GenErr.invalidPortSpec "abc") ∧
    parsePortPair "80:90/XYZ" = Except.error (GenErr.invalidPortSpec "80:90/XYZ") ∧
    parsePortPair "5678" = Except.ok ⟨5678, TargetPort.num 5678, Protocol.TCP⟩ ∧
    parsePortPair "5678:8080" = Except.ok ⟨5678, mkTargetPort "8080".data, Protocol.TCP⟩ ∧
    parsePortPair "80:http/TCP" = Except.ok ⟨80, mkTargetPort "http".data, Protocol.TCP⟩ ∧
    parsePortPair "80:http/UDP" = Except.ok ⟨80, mkTargetPort "http".data, Protocol.UDP⟩ :=
  ⟨port_parser_contract.1 "abc" "abc".data [] rfl (Or.inl rfl),
   port_parser_contract.2.1 "80:90/XYZ" "80".data "90/XYZ".data "90".data "XYZ".data
     rfl rfl (by decide) (by decide),
   port_parser_contract.2.2.1 "5678" "5678".data 5678 rfl rfl (by decide),
   port_parser_contract.2.2.2.1 "5678:8080" "5678".data "8080".data 5678 rfl rfl rfl
     (by decide),
   port_parser_contract.2.2.2.2.1 "80:http/TCP" "80".data "http/TCP".data "http".data 80
     rfl rfl rfl (by decide),
   port_parser_contract.2.2.2.2.2 "80:http/UDP" "80".data "http/UDP".data "http".data 80
     rfl rfl rfl (by decide)⟩

/-- Witness for C9 at concrete command inputs. -/
theorem hardcoded_constant_commands_never_unsupported_witness :
    isUnsupportedGeneratorError
      (createServiceClusterIP (fun _ => none) ["my-cs"] ["5678:8080"] "") = false ∧
    isUnsupportedGeneratorError
      (createServiceLoadBalancer (fun _ => none) ["my-cs"] ["5678:8080"] "1.2.3.4"
        ["role=web"]) = false :=
  hardcoded_constant_commands_never_unsupported (fun _ => none) ["my-cs"] ["5678:8080"]
    "" "1.2.3.4" ["role=web"]
